import Mathlib

/-!
Verification of the dark-multi instance registry and hostname-routed
reverse proxy (src/dark_multi/branch.py, src/dark_multi/proxy.py,
src/dark_multi/commands.py).

The Python sources are shallowly embedded below.  Strings are modelled by
Lean `String`, Python byte strings by `String` (the proxy never transforms
bodies), Python `int` by `Int`, Python lists and dicts by Lean lists
(dicts as insertion-ordered association lists, matching CPython dict
semantics).  File-system reads (metadata files) are modelled by passing
the file contents, split into lines, as explicit arguments.
-/

namespace DarkMulti

/-! ## Python string primitives

Small structural re-implementations of the Python string operations the
sources use, so that every definition reduces in the kernel. -/

/-- Characters of a Python-style `str.split(sep)` for a one-character
separator: splitting an empty string yields one empty group, and each
separator occurrence starts a new group. -/
def splitCharAux (sep : Char) : List Char → List (List Char)
  | [] => [[]]
  | c :: rest =>
    let r := splitCharAux sep rest
    if c = sep then [] :: r
    else
      match r with
      | [] => [[c]]
      | g :: gs => (c :: g) :: gs

/-- Python `s.split(sep)` for a one-character separator `sep`. -/
def pySplit (s : String) (sep : Char) : List String :=
  (splitCharAux sep s.data).map (fun cs => String.mk cs)

/-- Python `sep.join(l)`. -/
def joinSep (sep : String) : List String → String
  | [] => ""
  | [x] => x
  | x :: y :: xs => x ++ sep ++ joinSep sep (y :: xs)

/-- Python `c in s` for a one-character needle. -/
def hasChar (s : String) (c : Char) : Bool :=
  s.data.contains c

/-- Python `s.startswith(pre)`. -/
def pyStartsWith (s pre : String) : Bool :=
  pre.data.isPrefixOf s.data

/-- ASCII lower-casing of one character, as Python `str.lower` acts on the
ASCII hostnames and header names this program handles. -/
def lowerChar (c : Char) : Char :=
  if 'A' ≤ c ∧ c ≤ 'Z' then Char.ofNat (c.toNat + 32) else c

/-- Python `s.lower()` (restricted to ASCII, which covers every use in
the sources: header names and hostname labels). -/
def pyLower (s : String) : String :=
  String.mk (s.data.map lowerChar)

/-- Numeric value of an ASCII digit. -/
def digitVal (c : Char) : Option Nat :=
  if '0' ≤ c ∧ c ≤ '9' then some (c.toNat - '0'.toNat) else none

/-- Decimal value of a nonempty all-digit character list. -/
def natOfDigits (l : List Char) : Option Nat :=
  if l.isEmpty then none
  else
    l.foldl
      (fun acc c =>
        match acc, digitVal c with
        | some a, some d => some (a * 10 + d)
        | _, _ => none)
      (some 0)

/-- Python `int(s)` restricted to the plain decimal literals this program
ever feeds it (an optional minus sign followed by digits; the metadata
and Content-Length values it parses are written in exactly that form).
`none` models `ValueError`. -/
def pyInt? (s : String) : Option Int :=
  match s.data with
  | '-' :: rest => (natOfDigits rest).map (fun n => -(n : Int))
  | ds => (natOfDigits ds).map (fun n => (n : Int))

/-- First index of `x`, Python `list.index` (callers below only use it
when `x` is present; on absence it returns the length, unused). -/
def pyListIndex (x : String) : List String → Nat
  | [] => 0
  | y :: ys => if y = x then 0 else pyListIndex x ys + 1

/-- Python `l[i]` for `Int` index `i` (negative indices count from the
end; callers below stay in range, out-of-range yields `""`). -/
def pyGet (l : List String) (i : Int) : String :=
  if 0 ≤ i then l.getD i.toNat "" else l.getD (l.length - (-i).toNat) ""

/-- Python `l[:i]` for `Int` bound `i` (negative bound counts from the
end). -/
def pySliceTo (l : List String) (i : Int) : List String :=
  if 0 ≤ i then l.take i.toNat else l.take (l.length - min (-i).toNat l.length)

/-! ## Python dict as insertion-ordered association list -/

/-- CPython dict assignment `d[k] = v`: overwrite in place if the key
exists, else append at the end. -/
def pyDictSet {α : Type} : List (String × α) → String → α → List (String × α)
  | [], k, v => [(k, v)]
  | p :: ps, k, v => if p.1 = k then (k, v) :: ps else p :: pyDictSet ps k v

/-- CPython dict lookup `d.get(k)` / `d[k]`. -/
def pyDictGet? {α : Type} : List (String × α) → String → Option α
  | [], _ => none
  | p :: ps, k => if p.1 = k then some p.2 else pyDictGet? ps k

/-- CPython `list(d.keys())` (insertion order). -/
def pyDictKeys {α : Type} (d : List (String × α)) : List String :=
  d.map Prod.fst

/-! ## Route Resolver (src/dark_multi/proxy.py lines 57-77)

`DarkProxyHandler._proxy_request` first strips a trailing `:port` from
the Host header, splits on `.`, requires at least 4 labels ending in
`dlio.localhost`, then takes `dlio_idx = parts.index("dlio")`,
`branch_name = parts[dlio_idx - 1]` and
`canvas_parts = parts[:dlio_idx - 1] + parts[dlio_idx:]`. -/

/-- Lines 61-62: `if ":" in host: host = host.split(":")[0]`. -/
def stripPort (host : String) : String :=
  if hasChar host ':' then (pySplit host ':').headD host else host

/-- Lines 66-74: the hostname-parsing block of `_proxy_request`, acting
on the label list.  `none` models falling into the 400 branch. -/
def resolveParts (parts : List String) : Option (String × String) :=
  if 4 ≤ parts.length ∧ parts.drop (parts.length - 2) = ["dlio", "localhost"] then
    some (pyGet parts ((pyListIndex "dlio" parts : Int) - 1),
      joinSep "." (pySliceTo parts ((pyListIndex "dlio" parts : Int) - 1)
        ++ parts.drop (pyListIndex "dlio" parts)))
  else none

/-- The Route Resolver on a raw Host header value: strip the port, split
into labels, parse. -/
def parseHost (host : String) : Option (String × String) :=
  resolveParts (pySplit (stripPort host) '.')

/-! ## Instance registry (src/dark_multi/branch.py)

A metadata file is modelled by its list of lines.  `Branch.metadata`
parses `k=v` lines into a dict (`line.split("=", 1)`, later lines
overwriting earlier ones); `Branch.instance_id` is
`int(metadata.get("ID", 0))`; ports are
`10011 + instance_id * 100` and `11001 + instance_id * 100`. -/

/-- Python `line.split("=", 1)`: key before the first `=`, value the rest
(with further `=` preserved). -/
def splitOnce (line : String) : String × String :=
  let ps := pySplit line '='
  (ps.headD "", joinSep "=" ps.tail)

/-- `Branch.metadata` (branch.py lines 27-34) on the file's lines. -/
def parseMetadata (lines : List String) : List (String × String) :=
  lines.foldl
    (fun d line =>
      if hasChar line '=' then pyDictSet d (splitOnce line).1 (splitOnce line).2
      else d)
    []

/-- `Branch.instance_id` (branch.py lines 36-38):
`int(self.metadata.get("ID", 0))`.  A missing `ID` key yields `0`; a
present key is parsed by `int`, with `none` modelling `ValueError`. -/
def instance_id? (lines : List String) : Option Int :=
  match pyDictGet? (parseMetadata lines) "ID" with
  | none => some 0
  | some v => pyInt? v

/-- `Branch.port_base` (branch.py lines 67-69):
`10011 + self.instance_id * 100`. -/
def port_base (id : Int) : Int :=
  10011 + id * 100

/-- `Branch.bwd_port_base` (branch.py lines 71-73):
`11001 + self.instance_id * 100`. -/
def bwd_port_base (id : Int) : Int :=
  11001 + id * 100

/-- The 20-port test range `[port_base, port_base + 19]` an instance
occupies (spec §3; `cmd_urls` prints `port_base`-`port_base + 19`). -/
def testPortRange (id : Int) : Finset ℤ :=
  Finset.Icc (port_base id) (port_base id + 19)

/-- The 2-port BwdServer range `[bwd_port_base, bwd_port_base + 1]`
(`cmd_urls` prints `bwd_port_base`-`bwd_port_base + 1`). -/
def bwdPortRange (id : Int) : Finset ℤ :=
  Finset.Icc (bwd_port_base id) (bwd_port_base id + 1)

/-- The ports part of `Branch.status_line` (branch.py line 89):
`f"ports {self.port_base}+/{self.bwd_port_base}+"`. -/
def ports_fragment (id : Int) : String :=
  "ports " ++ toString (port_base id) ++ "+/" ++ toString (bwd_port_base id) ++ "+"

/-- One line of `find_next_instance_id`'s scan (branch.py lines 101-106):
a line starting with `ID=` contributes `int(line.split("=")[1])`, parse
failures are swallowed by the bare `except`. -/
def idOfLine (line : String) : Option Int :=
  if pyStartsWith line "ID=" then pyInt? ((pySplit line '=').getD 1 "") else none

/-- `max_id` update for one metadata line. -/
def scanLine (m : Int) (line : String) : Int :=
  match idOfLine line with
  | some v => max m v
  | none => m

/-- `find_next_instance_id` (branch.py lines 93-107) over the persisted
records (each record the lines of one instance's metadata file; override
directories without a metadata file contribute nothing and are omitted).
Returns `max_id + 1` with `max_id` starting at `0`. -/
def find_next_instance_id (recs : List (List String)) : Int :=
  (recs.foldl (fun m lines => lines.foldl scanLine m) 0) + 1

/-- All ids a record's lines contribute to the scan. -/
def recordIds (lines : List String) : List Int :=
  lines.filterMap idOfLine

/-- `Branch.write_metadata` (branch.py lines 75-81): the lines written
for a freshly registered instance. -/
def mkMetadata (id : Int) (name created : String) : List String :=
  ["ID=" ++ toString id, "NAME=" ++ name, "CREATED=" ++ created]

/-! ## Reverse proxy handler (src/dark_multi/proxy.py)

`DarkProxyHandler` state: the class-level `branch_ports` cache and the
registry snapshot `get_managed_branches()` consulted by
`refresh_branch_ports`.  A managed branch enters the handler as its
name, its `instance_id` (parsed from metadata, see `instance_id?`) and
its `is_running` flag (the external docker lookup, an external
collaborator, modelled as a boolean input). -/

structure BranchR where
  name : String
  instance_id : Int
  running : Bool
deriving DecidableEq

/-- A managed branch as the proxy sees it, from its metadata lines and
the external liveness answer; `none` models `int()` raising on a
malformed `ID` value. -/
def toBranchR (name : String) (lines : List String) (running : Bool) : Option BranchR :=
  (instance_id? lines).map (fun i => BranchR.mk name i running)

/-- `DarkProxyHandler.refresh_branch_ports` (proxy.py lines 30-36):
rebuild the cache from scratch, keeping only running branches, mapped to
`branch.bwd_port_base`. -/
def refresh_branch_ports (branches : List BranchR) : List (String × Int) :=
  branches.foldl
    (fun d b => if b.running then pyDictSet d b.name (bwd_port_base b.instance_id) else d)
    []

/-- Names of the currently running (live) branches, in registry order. -/
def liveNames (branches : List BranchR) : List String :=
  (branches.filter (fun b => b.running)).map (fun b => b.name)

/-- An inbound HTTP request as `BaseHTTPRequestHandler` presents it:
`self.command`, `self.path`, `self.headers` (an insertion-ordered
multimap with case-insensitive lookup) and the readable body stream. -/
structure Request where
  method : String
  path : String
  headers : List (String × String)
  rbody : String
deriving DecidableEq

/-- `self.headers.get(k)`: case-insensitive lookup of the first matching
header (email.message.Message semantics). -/
def headerGet? (hs : List (String × String)) (k : String) : Option String :=
  (hs.find? (fun p => pyLower p.1 = pyLower k)).map Prod.snd

/-- `self.headers.get(k, d)`. -/
def headerGetD (hs : List (String × String)) (k d : String) : String :=
  (headerGet? hs k).getD d

/-- The outbound `urllib.request.Request` the handler builds (proxy.py
lines 92-103): target port and path, same method, inbound headers minus
`Host`/`Content-Length`, `Host` set to the canvas host, body when
`Content-Length` was positive. -/
structure OutboundReq where
  port : Int
  method : String
  path : String
  headers : List (String × String)
  data : Option String
deriving DecidableEq

/-- What listens at `localhost:port`: nothing (connection refused or
timeout, surfacing as `urllib.error.URLError`), or an HTTP responder
with a fixed status, headers and body. -/
inductive Backend
  | unreachable (reason : String)
  | reply (status : Nat) (headers : List (String × String)) (rbody : String)
deriving DecidableEq

/-- Statuses `urllib`'s default opener follows transparently instead of
returning or raising. -/
def redirectStatuses : List Nat := [301, 302, 303, 307, 308]

/-- Result of `urllib.request.urlopen` as the handler observes it. -/
inductive UrlResult
  | success (status : Nat) (headers : List (String × String)) (rbody : String)
  | httpError (status : Nat) (headers : List (String × String)) (rbody : String)
  | urlError (reason : String)
  | redirected (status : Nat)
deriving DecidableEq

/-- Modelled from Python stdlib `urllib.request` semantics: a 2xx reply
is returned normally; a redirect status is followed transparently (its
continuation is outside this model and excluded by hypothesis in the
theorems below); any other status raises `HTTPError` carrying the
status, headers and body; no listener raises `URLError`. -/
def urlopen (net : OutboundReq → Backend) (o : OutboundReq) : UrlResult :=
  match net o with
  | .unreachable r => .urlError r
  | .reply s h b =>
    if 200 ≤ s ∧ s < 300 then .success s h b
    else if s ∈ redirectStatuses then .redirected s
    else .httpError s h b

/-- A response the handler writes back: status line, the headers it
explicitly `send_header`s (the stdlib adds `Server`/`Date` lines of its
own, not modelled), and the body bytes written to `wfile`. -/
structure HttpResponse where
  status : Nat
  headers : List (String × String)
  rbody : String
deriving DecidableEq

/-- Outcome of one `_proxy_request` call.  `redirectFollowed` marks the
out-of-model case where `urlopen` transparently followed a backend
redirect. -/
inductive ProxyOutcome
  | sent (r : HttpResponse)
  | redirectFollowed (status : Nat)
deriving DecidableEq

/-- One handler run: the response, the cache afterwards, whether
`refresh_branch_ports` ran, and the outbound requests issued (in
order). -/
structure HandlerResult where
  outcome : ProxyOutcome
  cache : List (String × Int)
  refreshed : Bool
  forwards : List OutboundReq
deriving DecidableEq

/-- Python `repr` of a list of the plain branch-name strings, as
`f"...{list(self.branch_ports.keys())}"` renders it. -/
def pyReprStrList (l : List String) : String :=
  "[" ++ joinSep ", " (l.map (fun s => "\x27" ++ s ++ "\x27")) ++ "]"

/-- `_send_error` (proxy.py lines 124-128): status, a single
`Content-Type: text/plain` header, the message as body. -/
def send_error (code : Nat) (message : String) : HttpResponse :=
  ⟨code, [("Content-Type", "text/plain")], message⟩

/-- `content_length = int(self.headers.get("Content-Length", 0))`
(proxy.py line 95); `none` models the `ValueError` a non-numeric value
raises inside the `try` block. -/
def contentLengthOf (req : Request) : Option Int :=
  match headerGet? req.headers "Content-Length" with
  | none => some 0
  | some v => pyInt? v

/-- Lines 92-103: the outbound request for resolved port `port`, canvas
host `canvas` and parsed content length `cl`. -/
def obrOf (req : Request) (port : Int) (canvas : String) (cl : Int) : OutboundReq :=
  ⟨port, req.method, req.path,
    (req.headers.filter
      (fun p => pyLower p.1 ≠ "host" ∧ pyLower p.1 ≠ "content-length"))
      ++ [("Host", canvas)],
    if 0 < cl then some (req.rbody.take cl.toNat) else none⟩

/-- Lines 106-120: relay the `urlopen` result — on success copy status,
headers except `Transfer-Encoding`, and body; on `HTTPError` copy status
and body under a fresh `Content-Type: text/plain`; on `URLError` send
502. -/
def forwardOutcome (net : OutboundReq → Backend) (o : OutboundReq) : ProxyOutcome :=
  match urlopen net o with
  | .success s hs b =>
    .sent ⟨s, hs.filter (fun p => pyLower p.1 ≠ "transfer-encoding"), b⟩
  | .httpError s _ b => .sent (send_error s b)
  | .urlError r => .sent (send_error 502 ("Backend error: " ++ r))
  | .redirected s => .redirectFollowed s

/-- `DarkProxyHandler._proxy_request` (proxy.py lines 57-122). -/
def proxy_request (branches : List BranchR) (net : OutboundReq → Backend)
    (cache : List (String × Int)) (req : Request) : HandlerResult :=
  let rawHost := headerGetD req.headers "Host" ""
  match parseHost rawHost with
  | none =>
    ⟨.sent (send_error 400
        ("Invalid hostname format: " ++ stripPort rawHost
          ++ "\nExpected: <canvas>.<branch>.dlio.localhost")),
      cache, false, []⟩
  | some (branch_name, canvas_host) =>
    let st :=
      if (pyDictGet? cache branch_name).isNone then (refresh_branch_ports branches, true)
      else (cache, false)
    match pyDictGet? st.1 branch_name with
    | none =>
      ⟨.sent (send_error 404
          ("Branch \x27" ++ branch_name ++ "\x27 not running.\nRunning branches: "
            ++ pyReprStrList (pyDictKeys st.1))),
        st.1, st.2, []⟩
    | some port =>
      match contentLengthOf req with
      | none =>
        ⟨.sent (send_error 500 "Proxy error: invalid Content-Length"), st.1, st.2, []⟩
      | some cl =>
        let o := obrOf req port canvas_host cl
        ⟨forwardOutcome net o, st.1, st.2, [o]⟩

/-- The methods `DarkProxyHandler` defines handlers for (proxy.py lines
42-55: `do_GET`, `do_POST`, `do_PUT`, `do_DELETE`, `do_HEAD`). -/
def supportedMethods : List String := ["GET", "POST", "PUT", "DELETE", "HEAD"]

/-- Dispatch outcome: `unsupported` models the stdlib
`BaseHTTPRequestHandler` answering `501 Unsupported method` when no
`do_<METHOD>` attribute exists; no forwarding happens. -/
inductive DispatchResult
  | handled (r : HandlerResult)
  | unsupported (method : String)
deriving DecidableEq

/-- One full request through the handler class: stdlib method dispatch,
then `_proxy_request`. -/
def handle_request (branches : List BranchR) (net : OutboundReq → Backend)
    (cache : List (String × Int)) (req : Request) : DispatchResult :=
  if req.method ∈ supportedMethods then .handled (proxy_request branches net cache req)
  else .unsupported req.method

/-! ## Branch removal (src/dark_multi/commands.py lines 218-275)

`cmd_rm` guards, then cleans up.  The on-disk state it consults and
mutates is modelled by the set of existing clone directories
(`Branch.exists`) and the set of persisted registry records
(`Branch.is_managed`, the override dir with its metadata file); tmux and
docker cleanup acts only on external collaborators and does not touch
the registry. -/

structure MultiState where
  clones : List String
  managed : List String
deriving DecidableEq

/-- `cmd_rm(args)`: error exit 1 if the clone directory is absent (lines
225-227), error exit 1 if not a managed branch (lines 229-231), abort
exit 1 when the confirmation prompt is declined (lines 234-245;
`confirmYes` models `input() == "y"`), else remove the override record
and the clone directory and return 0. -/
def cmd_rm (st : MultiState) (name : String) (force confirmYes : Bool) : Nat × MultiState :=
  if name ∉ st.clones then (1, st)
  else if name ∉ st.managed then (1, st)
  else if ¬force ∧ ¬confirmYes then (1, st)
  else (0, ⟨st.clones.erase name, st.managed.erase name⟩)

/-! ## Proxy server concurrency structure (src/dark_multi/proxy.py
lines 152-157)

`start_proxy_server` runs
`with socketserver.TCPServer(("", port), DarkProxyHandler) as httpd:
httpd.serve_forever()`.  Modelled from Python stdlib `socketserver`
semantics: `BaseServer.serve_forever` accepts connections on the calling
thread, and plain `TCPServer` (no `ThreadingMixIn`/`ForkingMixIn`) runs
`process_request` → `finish_request` — the whole handler, including the
blocking 30-second forward — synchronously on that same thread before
the loop accepts again. -/

inductive ServerClass
  | tcpServer
  | threadingTCPServer
  | forkingTCPServer
deriving DecidableEq

/-- The server class `start_proxy_server` instantiates (proxy.py line
156): `socketserver.TCPServer`, with no concurrency mixin. -/
def proxyServerClass : ServerClass := ServerClass.tcpServer

/-- The concurrency unit (thread 0) running `serve_forever`, which
accepts inbound connections. -/
def acceptUnit : Nat := 0

/-- The unit that runs the handler for the `k`-th accepted connection:
the accepting thread itself for a plain `TCPServer`, a fresh unit per
connection under the threading/forking mixins. -/
def handlerUnit (c : ServerClass) (k : Nat) : Nat :=
  match c with
  | .tcpServer => acceptUnit
  | .threadingTCPServer => k + 1
  | .forkingTCPServer => k + 1

/-- Events of the serve loop: accepting connection `i`, and the handler
finishing (response written) for connection `i`. -/
inductive PEvent
  | accept (i : Nat)
  | respond (i : Nat)
deriving DecidableEq

/-- The event trace of `serve_forever` on a plain `TCPServer` for `n`
sequential inbound connections: accept, handle to completion, repeat. -/
def serveTrace : Nat → List PEvent
  | 0 => []
  | n + 1 => serveTrace n ++ [PEvent.accept n, PEvent.respond n]

/-! ## Helper lemmas -/

theorem pyListIndex_append_not_mem (x : String) (l r : List String) (h : x ∉ l) :
    pyListIndex x (l ++ r) = l.length + pyListIndex x r := by
  induction l with
  | nil => simp
  | cons y ys ih =>
    have hy : y ≠ x := by
      intro he
      exact h (he ▸ List.mem_cons_self y ys)
    have hys : x ∉ ys := fun hm => h (List.mem_cons_of_mem y hm)
    simp [pyListIndex, hy, ih hys]
    omega

theorem pyDictSet_not_mem {α : Type} (d : List (String × α)) (k : String) (v : α)
    (h : k ∉ pyDictKeys d) : pyDictSet d k v = d ++ [(k, v)] := by
  induction d with
  | nil => rfl
  | cons p ps ih =>
    have hp : p.1 ≠ k := by
      intro he
      exact h (by simp [pyDictKeys, he])
    have hps : k ∉ pyDictKeys ps := by
      intro hm
      exact h (by simp [pyDictKeys] at hm ⊢; exact Or.inr hm)
    simp [pyDictSet, hp, ih hps]

theorem pyDictGet?_eq_none_iff {α : Type} (d : List (String × α)) (k : String) :
    pyDictGet? d k = none ↔ k ∉ pyDictKeys d := by
  induction d with
  | nil => simp [pyDictGet?, pyDictKeys]
  | cons p ps ih =>
    by_cases hp : p.1 = k
    · simp [pyDictGet?, pyDictKeys, hp]
    · simp [pyDictGet?, pyDictKeys, hp, ih, Ne.symm hp]

theorem refresh_fold_keys (bs : List BranchR) :
    ∀ acc : List (String × Int),
      (bs.map (fun b => b.name)).Nodup →
      (∀ b ∈ bs, b.name ∉ pyDictKeys acc) →
      pyDictKeys
          (bs.foldl
            (fun d b => if b.running then pyDictSet d b.name (bwd_port_base b.instance_id) else d)
            acc)
        = pyDictKeys acc ++ liveNames bs := by
  induction bs with
  | nil => intro acc _ _; simp [liveNames]
  | cons b bs ih =>
    intro acc hnd hacc
    have hnd' : (bs.map (fun b => b.name)).Nodup := by
      simpa using hnd.of_cons
    have hbtail : ∀ x ∈ bs, x.name ≠ b.name := by
      intro x hx he
      have : b.name ∈ bs.map (fun b => b.name) := by
        exact List.mem_map.mpr ⟨x, hx, he⟩
      exact (List.nodup_cons.mp (by simpa using hnd)).1 this
    cases hb : b.running with
    | false =>
      have := ih acc hnd' (fun x hx => hacc x (List.mem_cons_of_mem b hx))
      simpa [List.foldl_cons, hb, liveNames, List.filter_cons, hb] using this
    | true =>
      have hbacc : b.name ∉ pyDictKeys acc := hacc b (List.mem_cons_self b bs)
      have hset := pyDictSet_not_mem acc b.name (bwd_port_base b.instance_id) hbacc
      have hacc' : ∀ x ∈ bs, x.name ∉ pyDictKeys (pyDictSet acc b.name (bwd_port_base b.instance_id)) := by
        intro x hx
        rw [hset]
        intro hm
        simp [pyDictKeys] at hm
        rcases hm with hm | hm
        · exact hacc x (List.mem_cons_of_mem b hx) (by simpa [pyDictKeys] using hm)
        · exact hbtail x hx hm
      have := ih (pyDictSet acc b.name (bwd_port_base b.instance_id)) hnd' hacc'
      rw [List.foldl_cons, hb]
      simp only [if_true]
      rw [this, hset]
      simp [pyDictKeys, liveNames, List.filter_cons, hb]

/-! ## C1 — Route Resolver -/

/-- C1 counterexample: the hostname `dlio.x.dlio.localhost` has 4 labels
and ends in the routing-domain labels, so the claim says the resolver
returns instance name `x` (third-from-last) and rewritten host
`dlio.dlio.localhost`; the code instead finds the FIRST `dlio` label
(`parts.index`), reads the label before it with Python negative
indexing, and returns instance name `localhost` with a garbled rewritten
host. -/
theorem route_resolver_counterexample :
    parseHost "dlio.x.dlio.localhost" =
      some ("localhost", "dlio.x.dlio.dlio.x.dlio.localhost") ∧
    parseHost "dlio.x.dlio.localhost" ≠ some ("x", "dlio.dlio.localhost") := by
  decide

/-- C1 (amended): for every hostname whose labels are
`xs ++ [inst, "dlio", "localhost"]` with a nonempty leaf `xs`, PROVIDED
no label before the routing-domain suffix equals `dlio`, the resolver
returns the third-from-last label `inst` as instance name, and the
original labels with exactly that label removed, rejoined by `.`, as
rewritten host. -/
theorem route_resolver_spec (xs : List String) (inst : String)
    (hxs : xs ≠ []) (hnd : "dlio" ∉ xs ++ [inst]) :
    resolveParts (xs ++ [inst, "dlio", "localhost"]) =
      some (inst, joinSep "." (xs ++ ["dlio", "localhost"])) ∧
    (xs ++ [inst, "dlio", "localhost"]).eraseIdx xs.length =
      xs ++ ["dlio", "localhost"] ∧
    (xs ++ [inst, "dlio", "localhost"]).getD
        ((xs ++ [inst, "dlio", "localhost"]).length - 3) "?" = inst := by
  have hlen : (xs ++ [inst, "dlio", "localhost"]).length = xs.length + 3 := by
    simp
  have hxslen : 1 ≤ xs.length := by
    cases xs with
    | nil => exact absurd rfl hxs
    | cons a l => simp
  have hidx : pyListIndex "dlio" (xs ++ [inst, "dlio", "localhost"]) = xs.length + 1 := by
    have h1 : "dlio" ∉ xs ++ [inst] := hnd
    have : pyListIndex "dlio" ((xs ++ [inst]) ++ ["dlio", "localhost"])
        = (xs ++ [inst]).length + pyListIndex "dlio" ["dlio", "localhost"] := by
      exact pyListIndex_append_not_mem _ _ _ h1
    simpa [pyListIndex] using this
  have hdrop2 : (xs ++ [inst, "dlio", "localhost"]).drop (xs.length + 1) = ["dlio", "localhost"] := by
    have : ((xs ++ [inst]) ++ ["dlio", "localhost"]).drop ((xs ++ [inst]).length)
        = ["dlio", "localhost"] := List.drop_left _ _
    simpa using this
  have htake : (xs ++ [inst, "dlio", "localhost"]).take xs.length = xs := by
    have h := List.take_left xs [inst, "dlio", "localhost"]
    simpa using h
  have hget : (xs ++ [inst, "dlio", "localhost"]).getD xs.length "" = inst := by
    have h1 : (xs ++ [inst, "dlio", "localhost"])[xs.length]? = some inst := by
      rw [List.getElem?_append_right (le_refl xs.length)]
      simp
    simp [List.getD, h1]
  refine ⟨?_, ?_, ?_⟩
  · rw [resolveParts]
    rw [if_pos]
    · rw [hidx]
      have hi : ((xs.length + 1 : Nat) : Int) - 1 = (xs.length : Int) := by
        push_cast
        ring
      rw [hi, hdrop2]
      have hpg : pyGet (xs ++ [inst, "dlio", "localhost"]) (xs.length : Int) = inst := by
        rw [pyGet, if_pos (by positivity)]
        simpa using hget
      have hps : pySliceTo (xs ++ [inst, "dlio", "localhost"]) (xs.length : Int) = xs := by
        rw [pySliceTo, if_pos (by positivity)]
        simpa using htake
      rw [hpg, hps]
    · constructor
      · rw [hlen]; omega
      · rw [hlen]
        have : xs.length + 3 - 2 = xs.length + 1 := by omega
        rw [this, hdrop2]
  · rw [List.eraseIdx_append_of_length_le (le_refl xs.length)]
    simp
  · rw [hlen]
    have : xs.length + 3 - 3 = xs.length := by omega
    rw [this]
    have h1 : (xs ++ [inst, "dlio", "localhost"])[xs.length]? = some inst := by
      rw [List.getElem?_append_right (le_refl xs.length)]
      simp
    simp [List.getD, h1]

/-- C1 witness: the round-trip from the spec,
`dark-packages.main.dlio.localhost` resolving to
`(main, dark-packages.dlio.localhost)`. -/
theorem route_resolver_spec_witness :
    resolveParts ["dark-packages", "main", "dlio", "localhost"] =
      some ("main", "dark-packages.dlio.localhost") := by
  have h := (route_resolver_spec ["dark-packages"] "main" (by decide) (by decide)).1
  rw [show (["dark-packages"] ++ ["main", "dlio", "localhost"])
      = ["dark-packages", "main", "dlio", "localhost"] from rfl] at h
  rw [h]
  decide

/-! ## C2 — derived port ranges -/

/-- C2: for ids at least 1 the port bases follow the affine formulas,
and for distinct ids the four derived port ranges (20 test ports and 2
backend ports per instance) are pairwise disjoint. -/
theorem port_ranges_spec (n1 n2 : ℤ) (h1 : 1 ≤ n1) (h2 : 1 ≤ n2) (hne : n1 ≠ n2) :
    port_base n1 = 10011 + 100 * n1 ∧ bwd_port_base n1 = 11001 + 100 * n1 ∧
    port_base n2 = 10011 + 100 * n2 ∧ bwd_port_base n2 = 11001 + 100 * n2 ∧
    Disjoint (testPortRange n1) (testPortRange n2) ∧
    Disjoint (bwdPortRange n1) (bwdPortRange n2) ∧
    Disjoint (testPortRange n1) (bwdPortRange n1) ∧
    Disjoint (testPortRange n1) (bwdPortRange n2) ∧
    Disjoint (testPortRange n2) (bwdPortRange n1) ∧
    Disjoint (testPortRange n2) (bwdPortRange n2) := by
  have htt : ∀ a b : ℤ, a ≠ b → Disjoint (testPortRange a) (testPortRange b) := by
    intro a b hab
    rw [Finset.disjoint_left]
    intro p hp hq
    simp [testPortRange, port_base, Finset.mem_Icc] at hp hq
    omega
  have hbb : ∀ a b : ℤ, a ≠ b → Disjoint (bwdPortRange a) (bwdPortRange b) := by
    intro a b hab
    rw [Finset.disjoint_left]
    intro p hp hq
    simp [bwdPortRange, bwd_port_base, Finset.mem_Icc] at hp hq
    omega
  have htb : ∀ a b : ℤ, Disjoint (testPortRange a) (bwdPortRange b) := by
    intro a b
    rw [Finset.disjoint_left]
    intro p hp hq
    simp [testPortRange, bwdPortRange, port_base, bwd_port_base, Finset.mem_Icc] at hp hq
    omega
  exact ⟨by rw [port_base]; ring, by rw [bwd_port_base]; ring,
    by rw [port_base]; ring, by rw [bwd_port_base]; ring,
    htt n1 n2 hne, hbb n1 n2 hne, htb n1 n1, htb n1 n2, htb n2 n1, htb n2 n2⟩

/-- C2 witness: the guarantees instantiated at the two concrete ids 1
and 2 (ports 10111/11101 versus 10211/11201). -/
theorem port_ranges_spec_witness :
    port_base 1 = 10011 + 100 * 1 ∧ bwd_port_base 1 = 11001 + 100 * 1 ∧
    port_base 2 = 10011 + 100 * 2 ∧ bwd_port_base 2 = 11001 + 100 * 2 ∧
    Disjoint (testPortRange 1) (testPortRange 2) ∧
    Disjoint (bwdPortRange 1) (bwdPortRange 2) ∧
    Disjoint (testPortRange 1) (bwdPortRange 1) ∧
    Disjoint (testPortRange 1) (bwdPortRange 2) ∧
    Disjoint (testPortRange 2) (bwdPortRange 1) ∧
    Disjoint (testPortRange 2) (bwdPortRange 2) :=
  port_ranges_spec 1 2 (by norm_num) (by norm_num) (by norm_num)

/-! ## C3 — monotone id allocation -/

theorem scan_lines_eq (lines : List String) :
    ∀ m : Int, lines.foldl scanLine m = (recordIds lines).foldl max m := by
  induction lines with
  | nil => intro m; rfl
  | cons l ls ih =>
    intro m
    cases h : idOfLine l with
    | none =>
      simp only [List.foldl_cons, recordIds, List.filterMap_cons, h, scanLine]
      exact ih m
    | some v =>
      simp only [List.foldl_cons, recordIds, List.filterMap_cons, h, scanLine]
      exact ih (max m v)

theorem recs_fold_eq (recs : List (List String)) :
    ∀ (ids : List Int) (m : Int),
      recs.map recordIds = ids.map (fun i => [i]) →
      recs.foldl (fun m lines => lines.foldl scanLine m) m = ids.foldl max m := by
  induction recs with
  | nil =>
    intro ids m h
    have : ids = [] := by
      cases ids with
      | nil => rfl
      | cons i is => simp at h
    subst this
    rfl
  | cons r rs ih =>
    intro ids m h
    cases ids with
    | nil => simp at h
    | cons i is =>
      simp only [List.map_cons, List.cons.injEq] at h
      obtain ⟨hr, hrs⟩ := h
      simp only [List.foldl_cons]
      rw [scan_lines_eq, hr]
      exact ih is (max m i) hrs

theorem foldl_max_bounds (l : List Int) :
    ∀ a : Int, a ≤ l.foldl max a ∧ ∀ i ∈ l, i ≤ l.foldl max a := by
  induction l with
  | nil => intro a; exact ⟨le_refl a, by simp⟩
  | cons x xs ih =>
    intro a
    constructor
    · exact le_trans (le_max_left a x) (ih (max a x)).1
    · intro i hi
      rcases List.mem_cons.mp hi with hx | hxs
      · subst hx
        exact le_trans (le_max_right a i) (ih (max a i)).1
      · exact (ih (max a x)).2 i hxs

theorem foldl_max_attained (l : List Int) :
    ∀ a : Int, l.foldl max a = a ∨ l.foldl max a ∈ l := by
  induction l with
  | nil => intro a; exact Or.inl rfl
  | cons x xs ih =>
    intro a
    rcases ih (max a x) with h | h
    · rcases max_choice a x with hc | hc
      · exact Or.inl (by rw [List.foldl_cons, h, hc])
      · refine Or.inr ?_
        rw [List.foldl_cons, h, hc]
        exact List.mem_cons_self x xs
    · exact Or.inr (List.mem_cons_of_mem x h)

/-- C3: `find_next_instance_id` returns 1 on an empty registry, and
otherwise `M + 1` where `M` is the maximum id among the persisted
records.  Records are given as their metadata lines; the hypothesis
states that record `j` carries exactly the single id `ids[j]` (the shape
`Branch.write_metadata` produces, see the witness). -/
theorem find_next_id_spec (recs : List (List String)) (ids : List Int)
    (hrec : recs.map recordIds = ids.map (fun i => [i])) :
    (recs = [] → find_next_instance_id recs = 1) ∧
    find_next_instance_id recs = ids.foldl max 0 + 1 ∧
    (ids ≠ [] → (∀ i ∈ ids, 1 ≤ i) →
      ids.foldl max 0 ∈ ids ∧ ∀ i ∈ ids, i ≤ ids.foldl max 0) := by
  have hmain : find_next_instance_id recs = ids.foldl max 0 + 1 := by
    rw [find_next_instance_id, recs_fold_eq recs ids 0 hrec]
  refine ⟨?_, hmain, ?_⟩
  · intro he
    subst he
    rfl
  · intro hne hpos
    have hb := foldl_max_bounds ids 0
    rcases foldl_max_attained ids 0 with h0 | hm
    · exfalso
      cases ids with
      | nil => exact hne rfl
      | cons i is =>
        have hi1 : 1 ≤ i := hpos i (List.mem_cons_self i is)
        have hi2 := hb.2 i (List.mem_cons_self i is)
        omega
    · exact ⟨hm, hb.2⟩

/-- C3 witness: an empty registry allocates id 1; a registry persisting
ids 1 and 3 (the gap left by a removed id 2) allocates 4, not 2. -/
theorem find_next_id_spec_witness :
    find_next_instance_id [] = 1 ∧
    find_next_instance_id
        [mkMetadata 1 "main" "2024-01-01T00:00:00",
          mkMetadata 3 "feature" "2024-01-02T00:00:00"] = 4 := by
  have h0 := find_next_id_spec [] [] (by decide)
  have h := find_next_id_spec
      [mkMetadata 1 "main" "2024-01-01T00:00:00",
        mkMetadata 3 "feature" "2024-01-02T00:00:00"]
      [1, 3] (by decide)
  refine ⟨h0.1 rfl, ?_⟩
  rw [h.2.1]
  decide

/-! ## C8 — removing an absent instance -/

/-- C8 counterexample: removing `main` once succeeds (exit 0), but the
second `rm` of the same name is NOT a silent success — it reports
failure (exit 1), leaving the registry unchanged. -/
theorem cmd_rm_twice_counterexample :
    (cmd_rm ⟨["main"], ["main"]⟩ "main" true true).1 = 0 ∧
    (cmd_rm (cmd_rm ⟨["main"], ["main"]⟩ "main" true true).2 "main" true true).1 = 1 ∧
    (cmd_rm (cmd_rm ⟨["main"], ["main"]⟩ "main" true true).2 "main" true true).2 =
      (cmd_rm ⟨["main"], ["main"]⟩ "main" true true).2 := by
  decide

/-- C8 (amended): removing an instance whose clone directory is absent
is a no-op on the registry state, but it reports FAILURE (exit code 1,
after the `Branch not found` error), not success. -/
theorem cmd_rm_absent_spec (st : MultiState) (name : String) (force confirmYes : Bool)
    (h : name ∉ st.clones) :
    cmd_rm st name force confirmYes = (1, st) := by
  simp [cmd_rm, h]

/-- C8 witness: removing from an empty state fails with exit 1 and
leaves the state unchanged. -/
theorem cmd_rm_absent_spec_witness :
    cmd_rm ⟨[], []⟩ "main" true true = (1, ⟨[], []⟩) :=
  cmd_rm_absent_spec ⟨[], []⟩ "main" true true (by decide)

/-! ## C9 — concurrency unit of the serve loop -/

/-- C9 (code bug): `start_proxy_server` uses plain
`socketserver.TCPServer`, so the unit that runs a handler (and its
blocking 30-second forward) IS the unit that accepts new connections,
for every connection; the 2-connection trace shows connection 1 is only
accepted after connection 0's response completes.  The spec requires the
opposite ("must not be the same unit"). -/
theorem proxy_single_unit_bug :
    proxyServerClass = ServerClass.tcpServer ∧
    (∀ k, handlerUnit proxyServerClass k = acceptUnit) ∧
    serveTrace 2 = [PEvent.accept 0, PEvent.respond 0, PEvent.accept 1, PEvent.respond 1] := by
  exact ⟨rfl, fun _ => rfl, by decide⟩

/-! ## C10 — missing ID metadata entry -/

/-- C10: when a managed instance's metadata has no `ID` entry,
`Branch.instance_id` returns 0 (no error), the derived ports are exactly
10011 and 11001, the branch enters the proxy routing cache at port
11001 when running, and the listing line shows those ports. -/
theorem missing_id_spec (name : String) (lines : List String)
    (h : pyDictGet? (parseMetadata lines) "ID" = none) :
    instance_id? lines = some 0 ∧
    (instance_id? lines).map port_base = some 10011 ∧
    (instance_id? lines).map bwd_port_base = some 11001 ∧
    toBranchR name lines true = some ⟨name, 0, true⟩ ∧
    refresh_branch_ports [⟨name, 0, true⟩] = [(name, 11001)] ∧
    ports_fragment 0 = "ports 10011+/11001+" := by
  have h1 : instance_id? lines = some 0 := by
    rw [instance_id?, h]
  refine ⟨h1, ?_, ?_, ?_, ?_, by decide⟩
  · rw [h1]
    rfl
  · rw [h1]
    rfl
  · rw [toBranchR, h1]
    rfl
  · rfl

/-! ## C4 — response relay -/

/-- C4 counterexample: a live backend answers 404 with a custom header;
the claim says the proxy relays all backend headers except
`Transfer-Encoding`, but non-2xx statuses surface as `HTTPError` and the
proxy then replaces every backend header by a single
`Content-Type: text/plain`. -/
theorem proxy_relay_counterexample :
    (proxy_request [] (fun _ => Backend.reply 404 [("X-Custom", "yes")] "nf")
        [("main", 11101)]
        ⟨"GET", "/x", [("Host", "dark-packages.main.dlio.localhost")], ""⟩).outcome =
      ProxyOutcome.sent ⟨404, [("Content-Type", "text/plain")], "nf"⟩ ∧
    ProxyOutcome.sent (⟨404, [("Content-Type", "text/plain")], "nf"⟩ : HttpResponse) ≠
      ProxyOutcome.sent ⟨404, [("X-Custom", "yes")], "nf"⟩ := by
  decide

/-- C4 (amended): for a request routed to a cached live backend whose
reply is not a redirect: a 2xx reply is relayed with its status, all its
headers except `Transfer-Encoding`, and its body unchanged; any other
status is relayed with its status and body unchanged but with the
backend headers replaced by `Content-Type: text/plain` (the `HTTPError`
path). -/
theorem proxy_relay_spec (branches : List BranchR) (net : OutboundReq → Backend)
    (cache : List (String × Int)) (req : Request) (name canvas : String) (port : Int)
    (cl : Int) (s : Nat) (hs : List (String × String)) (b : String)
    (hroute : parseHost (headerGetD req.headers "Host" "") = some (name, canvas))
    (hhit : pyDictGet? cache name = some port)
    (hcl : contentLengthOf req = some cl)
    (hnet : net (obrOf req port canvas cl) = Backend.reply s hs b)
    (hnr : s ∉ redirectStatuses) :
    (200 ≤ s ∧ s < 300 →
      (proxy_request branches net cache req).outcome =
        ProxyOutcome.sent
          ⟨s, hs.filter (fun p => pyLower p.1 ≠ "transfer-encoding"), b⟩) ∧
    (¬(200 ≤ s ∧ s < 300) →
      (proxy_request branches net cache req).outcome =
        ProxyOutcome.sent ⟨s, [("Content-Type", "text/plain")], b⟩) := by
  have houtcome : (proxy_request branches net cache req).outcome =
      forwardOutcome net (obrOf req port canvas cl) := by
    simp [proxy_request, hroute, hhit, hcl]
  constructor
  · intro h2
    rw [houtcome]
    simp [forwardOutcome, urlopen, hnet, h2]
  · intro h2
    rw [houtcome]
    simp [forwardOutcome, urlopen, hnet, h2, hnr, send_error]

/-- C4 witness: a 200 reply is relayed with status, headers (minus
`Transfer-Encoding`) and body unchanged. -/
theorem proxy_relay_spec_witness :
    (proxy_request []
        (fun _ => Backend.reply 200
          [("Content-Type", "application/json"), ("Transfer-Encoding", "chunked")] "pong")
        [("main", 11101)]
        ⟨"GET", "/ping", [("Host", "dark-packages.main.dlio.localhost")], ""⟩).outcome =
      ProxyOutcome.sent ⟨200, [("Content-Type", "application/json")], "pong"⟩ := by
  have h := (proxy_relay_spec []
      (fun _ => Backend.reply 200
        [("Content-Type", "application/json"), ("Transfer-Encoding", "chunked")] "pong")
      [("main", 11101)]
      ⟨"GET", "/ping", [("Host", "dark-packages.main.dlio.localhost")], ""⟩
      "main" "dark-packages.dlio.localhost" 11101 0 200
      [("Content-Type", "application/json"), ("Transfer-Encoding", "chunked")] "pong"
      (by decide) (by decide) (by decide) (by decide) (by decide)).1 (by decide)
  rw [h]
  decide

/-! ## C5 — behaviour on an unreachable cached backend -/

/-- C5 counterexample: with `main` resolved in the cache and its backend
refusing connections, the handler answers 502 immediately — no refresh
happens (`refreshed = false`) and only one forward is attempted, though
the claim requires a refresh-and-retry before the 502. -/
theorem proxy_unreachable_counterexample :
    proxy_request [⟨"main", 1, true⟩] (fun _ => Backend.unreachable "Connection refused")
        [("main", 11101)]
        ⟨"GET", "/ping", [("Host", "dark-packages.main.dlio.localhost")], ""⟩ =
      ⟨ProxyOutcome.sent
          ⟨502, [("Content-Type", "text/plain")], "Backend error: Connection refused"⟩,
        [("main", 11101)], false,
        [⟨11101, "GET", "/ping", [("Host", "dark-packages.dlio.localhost")], none⟩]⟩ := by
  decide

/-- C5 (amended): when the backend address is present in the cache but
the outbound connection fails, the proxy responds 502 immediately: it
performs NO cache refresh and NO retry (exactly one forward is
attempted), and the cache — stale entry included — is left unchanged. -/
theorem proxy_unreachable_spec (branches : List BranchR) (net : OutboundReq → Backend)
    (cache : List (String × Int)) (req : Request) (name canvas : String) (port : Int)
    (cl : Int) (reason : String)
    (hroute : parseHost (headerGetD req.headers "Host" "") = some (name, canvas))
    (hhit : pyDictGet? cache name = some port)
    (hcl : contentLengthOf req = some cl)
    (hnet : net (obrOf req port canvas cl) = Backend.unreachable reason) :
    proxy_request branches net cache req =
      ⟨ProxyOutcome.sent
          ⟨502, [("Content-Type", "text/plain")], "Backend error: " ++ reason⟩,
        cache, false, [obrOf req port canvas cl]⟩ := by
  simp [proxy_request, hroute, hhit, hcl, forwardOutcome, urlopen, hnet, send_error]

/-- C5 witness: a concrete timed-out backend. -/
theorem proxy_unreachable_spec_witness :
    proxy_request [] (fun _ => Backend.unreachable "timed out") [("dev", 11201)]
        ⟨"POST", "/api", [("Host", "canvas.dev.dlio.localhost")], ""⟩ =
      ⟨ProxyOutcome.sent
          ⟨502, [("Content-Type", "text/plain")], "Backend error: timed out"⟩,
        [("dev", 11201)], false,
        [obrOf ⟨"POST", "/api", [("Host", "canvas.dev.dlio.localhost")], ""⟩
          11201 "canvas.dlio.localhost" 0]⟩ :=
  proxy_unreachable_spec [] (fun _ => Backend.unreachable "timed out") [("dev", 11201)]
    ⟨"POST", "/api", [("Host", "canvas.dev.dlio.localhost")], ""⟩
    "dev" "canvas.dlio.localhost" 11201 0 "timed out"
    (by decide) (by decide) (by decide) (by decide)

/-! ## C6 — 404 path and cache refresh -/

/-- C6 counterexample: the queried instance `old` has no live backend,
yet — because a stale cache entry is present — the proxy declares
failure WITHOUT any refresh, and the failure is a 502, not the 404 the
claim describes. -/
theorem proxy_stale_cache_counterexample :
    (proxy_request [] (fun _ => Backend.unreachable "refused") [("old", 11201)]
        ⟨"GET", "/", [("Host", "canvas.old.dlio.localhost")], ""⟩).refreshed = false ∧
    (proxy_request [] (fun _ => Backend.unreachable "refused") [("old", 11201)]
        ⟨"GET", "/", [("Host", "canvas.old.dlio.localhost")], ""⟩).outcome =
      ProxyOutcome.sent
        ⟨502, [("Content-Type", "text/plain")], "Backend error: refused"⟩ := by
  decide

/-- C6 (amended): when the parsed instance name has no live backend AND
is absent from the proxy cache (the unresolved-lookup case), the proxy
refreshes the cache exactly once before declaring failure, answers 404,
and the branch list rendered into the 404 body is exactly the
currently-live instance names, never including the queried name.  (With
a stale cache entry present the proxy instead forwards and answers 502
without refreshing — see the counterexample.) -/
theorem proxy_notfound_spec (branches : List BranchR) (net : OutboundReq → Backend)
    (cache : List (String × Int)) (req : Request) (name canvas : String)
    (hroute : parseHost (headerGetD req.headers "Host" "") = some (name, canvas))
    (hmiss : pyDictGet? cache name = none)
    (hnodup : (branches.map (fun b => b.name)).Nodup)
    (hnl : name ∉ liveNames branches) :
    proxy_request branches net cache req =
      ⟨ProxyOutcome.sent (send_error 404
          ("Branch \x27" ++ name ++ "\x27 not running.\nRunning branches: "
            ++ pyReprStrList (liveNames branches))),
        refresh_branch_ports branches, true, []⟩ ∧
    pyDictKeys (refresh_branch_ports branches) = liveNames branches ∧
    name ∉ pyDictKeys (refresh_branch_ports branches) := by
  have hkeys : pyDictKeys (refresh_branch_ports branches) = liveNames branches := by
    have h := refresh_fold_keys branches [] hnodup (by simp [pyDictKeys])
    simpa [refresh_branch_ports, pyDictKeys] using h
  have hnone : pyDictGet? (refresh_branch_ports branches) name = none := by
    rw [pyDictGet?_eq_none_iff, hkeys]
    exact hnl
  refine ⟨?_, hkeys, by rw [hkeys]; exact hnl⟩
  simp [proxy_request, hroute, hmiss, hnone, hkeys]

/-- C6 witness: with live branch `dev` and stopped branch `idle`, a
request for absent `main` triggers a refresh and yields a 404 listing
exactly `dev`. -/
theorem proxy_notfound_spec_witness :
    proxy_request [⟨"dev", 2, true⟩, ⟨"idle", 3, false⟩]
        (fun _ => Backend.unreachable "r") []
        ⟨"GET", "/", [("Host", "x.main.dlio.localhost")], ""⟩ =
      ⟨ProxyOutcome.sent
          ⟨404, [("Content-Type", "text/plain")],
            "Branch \x27main\x27 not running.\nRunning branches: [\x27dev\x27]"⟩,
        [("dev", 11201)], true, []⟩ := by
  have h := (proxy_notfound_spec [⟨"dev", 2, true⟩, ⟨"idle", 3, false⟩]
      (fun _ => Backend.unreachable "r") []
      ⟨"GET", "/", [("Host", "x.main.dlio.localhost")], ""⟩
      "main" "x.dlio.localhost" (by decide) (by decide) (by decide) (by decide)).1
  rw [h]
  decide

/-! ## C7 — method dispatch -/

/-- C7 counterexample: a PATCH request to a perfectly routable live
instance is not forwarded at all — `DarkProxyHandler` defines no
`do_PATCH`, so the stdlib layer rejects it with `501 Unsupported
method`, contradicting the claim that every method is forwarded. -/
theorem method_dispatch_counterexample :
    handle_request [⟨"main", 1, true⟩] (fun _ => Backend.reply 200 [] "ok")
        [("main", 11101)]
        ⟨"PATCH", "/x", [("Host", "dark-packages.main.dlio.localhost")], ""⟩ =
      DispatchResult.unsupported "PATCH" ∧
    "PATCH" ∉ supportedMethods ∧ "OPTIONS" ∉ supportedMethods := by
  decide

/-- C7 (amended): only GET, POST, PUT, DELETE and HEAD are proxied — any
other method (e.g. PATCH, OPTIONS) is answered `501 Unsupported method`
and never forwarded; for the five supported methods the single outbound
request keeps the inbound method, path and headers, dropping only
`Host`/`Content-Length` and appending the rewritten `Host`. -/
theorem method_dispatch_spec (branches : List BranchR) (net : OutboundReq → Backend)
    (cache : List (String × Int)) (req : Request) (name canvas : String) (port : Int)
    (cl : Int)
    (hroute : parseHost (headerGetD req.headers "Host" "") = some (name, canvas))
    (hhit : pyDictGet? cache name = some port)
    (hcl : contentLengthOf req = some cl) :
    (req.method ∉ supportedMethods →
      handle_request branches net cache req = DispatchResult.unsupported req.method) ∧
    (req.method ∈ supportedMethods →
      handle_request branches net cache req =
        DispatchResult.handled (proxy_request branches net cache req) ∧
      (proxy_request branches net cache req).forwards = [obrOf req port canvas cl] ∧
      (obrOf req port canvas cl).method = req.method ∧
      (obrOf req port canvas cl).path = req.path ∧
      (obrOf req port canvas cl).headers =
        req.headers.filter
          (fun p => pyLower p.1 ≠ "host" ∧ pyLower p.1 ≠ "content-length")
          ++ [("Host", canvas)]) := by
  constructor
  · intro h
    simp [handle_request, h]
  · intro h
    refine ⟨by simp [handle_request, h], ?_, rfl, rfl, rfl⟩
    simp [proxy_request, hroute, hhit, hcl]

/-- C7 witness: a GET request is dispatched and forwarded with its
method, path and extra header preserved, `Host` rewritten. -/
theorem method_dispatch_spec_witness :
    (proxy_request [] (fun _ => Backend.reply 200 [] "ok") [("main", 11101)]
        ⟨"GET", "/p", [("Host", "c.main.dlio.localhost"), ("X-A", "1")], ""⟩).forwards =
      [⟨11101, "GET", "/p", [("X-A", "1"), ("Host", "c.dlio.localhost")], none⟩] := by
  have h := ((method_dispatch_spec [] (fun _ => Backend.reply 200 [] "ok") [("main", 11101)]
      ⟨"GET", "/p", [("Host", "c.main.dlio.localhost"), ("X-A", "1")], ""⟩
      "main" "c.dlio.localhost" 11101 0
      (by decide) (by decide) (by decide)).2 (by decide)).2.1
  rw [h]
  decide

/-- C10 witness: a metadata file with only `NAME`/`CREATED` lines. -/
theorem missing_id_spec_witness :
    instance_id? ["NAME=main", "CREATED=2024-01-01T00:00:00"] = some 0 ∧
    (instance_id? ["NAME=main", "CREATED=2024-01-01T00:00:00"]).map port_base = some 10011 ∧
    (instance_id? ["NAME=main", "CREATED=2024-01-01T00:00:00"]).map bwd_port_base = some 11001 ∧
    toBranchR "main" ["NAME=main", "CREATED=2024-01-01T00:00:00"] true = some ⟨"main", 0, true⟩ ∧
    refresh_branch_ports [⟨"main", 0, true⟩] = [("main", 11001)] ∧
    ports_fragment 0 = "ports 10011+/11001+" :=
  missing_id_spec "main" ["NAME=main", "CREATED=2024-01-01T00:00:00"] (by decide)

end DarkMulti
